import Mathlib

/-!
Verification development for the crypto price/balance reporting scripts
(`get-cex-crypto-prices.py`, `get-cex-balances.py`, `get-asset-status.py`,
`get-web3-asset-status.py`, `get-web3-balances.py`, `jup_price.py`).

Modeling conventions:
* Python floats are modeled as rationals; the scripts only read, multiply
  and divide prices and balances, so exact arithmetic is faithful here.
* Python strings are Lean `String`s; where slicing or character-level
  reasoning is needed they are modeled as `List Char` (noted locally).
* Network calls are modeled by passing the outcome of the underlying
  client call as an explicit argument: `Except err v` distinguishes a
  raised exception from a returned value, `Option` models `None`.
* A function that catches all exceptions is total and returns its
  sentinel on the `.error` branch; a function that catches only some
  exception kinds returns `Except PyExc` so an uncaught kind can escape.
-/

/-- Python `str.upper()`, modeled character by character
(`ticker.upper()` in the sources). -/
def pyUpper (s : String) : String := ⟨s.data.map Char.toUpper⟩

/-- Python `str.lower()` as a character list (`str(e).lower()`). -/
def pyLower (s : String) : List Char := s.data.map Char.toLower

/-- Prefix test on character lists (helper for the substring test). -/
def isPre : List Char → List Char → Bool
  | [], _ => true
  | _ :: _, [] => false
  | a :: as, b :: bs => a == b && isPre as bs

/-- Python substring test `pat in s` on character lists. -/
def containsSub (pat : List Char) : List Char → Bool
  | [] => isPre pat []
  | c :: t => isPre pat (c :: t) || containsSub pat t

/-- Rounding a value to two decimal places, as the `:,.2f` format
specifier displays it (ties of binary floats are not modeled). -/
def round2 (q : ℚ) : ℚ := ((round (q * 100) : ℤ) : ℚ) / 100

namespace Web3Balances

/-!
Model of `src/get-web3-balances.py` (class `CryptoBalanceChecker`).
Each `get_*_balance` method wraps every network access in
`try/except Exception`, so the model takes the outcome of the underlying
client calls as an `Except`/`Option` argument and is total.
-/

/-- `self.jup_decimals = 6` (Jupiter uses 6 decimals). -/
def jup_decimals : ℕ := 6

/-- `self.jpl_decimals = 6` (JPL uses 6 decimals). -/
def jpl_decimals : ℕ := 6

/-- `get_eth_balance`: `connected` is `self.eth_w3.is_connected()`;
the client outcome is the wei balance returned by `eth.get_balance`
(`.error` = any exception, also a missing address). `from_wei(b, "ether")`
divides by `10 ** 18`; every failure path returns 0. -/
def get_eth_balance (connected : Bool) (client : Except String ℕ) : ℚ :=
  if !connected then 0
  else
    match client with
    | .error _ => 0
    | .ok wei => (wei : ℚ) / 10 ^ 18

/-- `get_flare_balance`: same shape as `get_eth_balance` against the
Flare RPC. -/
def get_flare_balance (connected : Bool) (client : Except String ℕ) : ℚ :=
  if !connected then 0
  else
    match client with
    | .error _ => 0
    | .ok wei => (wei : ℚ) / 10 ^ 18

/-- `get_sol_balance`: the client outcome is `response.value` (lamports)
of `get_balance`; lamports are converted with `/ 10**9`; any exception is
caught and 0 returned. -/
def get_sol_balance (client : Except String ℤ) : ℚ :=
  match client with
  | .error _ => 0
  | .ok lamports => (lamports : ℚ) / 10 ^ 9

/-- `get_jup_balance`: the client outcome is the result of deriving the
associated token account and calling `get_token_account_balance`:
`.error` = any exception raised (including the RPC error for a
non-existent token account), `.ok none` = `response.value is None`,
`.ok (some raw)` = the raw integer token amount. Conversion uses
`10 ** self.jup_decimals`; both failure branches return 0. -/
def get_jup_balance (client : Except String (Option ℕ)) : ℚ :=
  match client with
  | .error _ => 0
  | .ok none => 0
  | .ok (some raw) => (raw : ℚ) / 10 ^ jup_decimals

/-- `get_jpl_balance`: like `get_jup_balance`, but the inner handler
recognizes the "could not find account" RPC error and returns 0 for it;
any other exception is re-raised and caught by the outer
`except Exception`, which also returns 0. -/
def get_jpl_balance (client : Except String (Option ℕ)) : ℚ :=
  match client with
  | .ok (some raw) => (raw : ℚ) / 10 ^ jpl_decimals
  | .ok none => 0
  | .error e =>
    if containsSub "could not find account".data (pyLower e) then 0
    else 0

/-- `get_wflr_balance`: `connected` is `self.flare_w3.is_connected()`;
the client outcome carries the pair of the contract-reported
`decimals()` and the raw `balanceOf` amount; conversion divides by
`10 ** decimals`; every failure path returns 0. -/
def get_wflr_balance (connected : Bool) (client : Except String (ℕ × ℕ)) : ℚ :=
  if !connected then 0
  else
    match client with
    | .error _ => 0
    | .ok dn => (dn.2 : ℚ) / 10 ^ dn.1

end Web3Balances

/-!
Shared reporting model for `src/get-asset-status.py` and
`src/get-web3-asset-status.py`. The two scripts contain
character-identical copies of `format_address` and of the USD-value cell
expression, so they are modeled once.
-/

/-- Parsed CoinGecko response of `get_crypto_prices`:
asset id mapped to a record that maps "usd" to the price. -/
abbrev CGMap := List (String × List (String × ℚ))

/-- The price lookup `prices.get(cid, {}).get("usd", 0)`. -/
def cg_usd (m : CGMap) (cid : String) : ℚ :=
  (((m.lookup cid).getD []).lookup "usd").getD 0

/-- The USD Value cell of one balance row:
`f"${balance * prices.get(cid, {}).get('usd', 0):,.2f}" if prices else "N/A"`.
The guard is Python truthiness of the parsed response: a failed fetch
(`None`) and a present-but-empty mapping are both falsy and render
"N/A"; a non-empty response renders the dollar amount (already rounded
to two decimals by the format specifier). -/
def usd_value_cell (amount : ℚ) (prices : Option CGMap) (cid : String) : Option ℚ :=
  match prices with
  | none => none
  | some m => if m = [] then none else some (round2 (amount * cg_usd m cid))

/-- `format_address` (identical in both asset-status scripts), with the
address as a character list (`none` = the address variable is `None`):
empty or missing address renders "N/A", otherwise `address[:12]`, a
literal "...", and `address[-4:]` (the default `length=12` is used at
every call site). -/
def format_address (address : Option (List Char)) : List Char :=
  match address with
  | none => "N/A".data
  | some s =>
    if s = [] then "N/A".data
    else s.take 12 ++ "...".data ++ s.drop (s.length - 4)

/-- One row of the balances table in the two asset-status scripts:
name, formatted address, balance, USD Value cell, and the presence
marker (`balance > 0`). -/
structure BalanceRow where
  name : String
  address : List Char
  balance : ℚ
  usd : Option ℚ
  present : Bool
deriving Repr, DecidableEq

namespace AssetStatus

/-!
Model of `src/get-asset-status.py`. `get_eth_balance` there is the same
defensive wrapper as in `get-web3-balances.py` but written with explicit
`0.0` sentinels and a `float(...)` conversion; the rational model is the
same function.
-/

/-- `get_eth_balance` of `get-asset-status.py` (returns `0.0` when the
node is unreachable or any exception is raised; otherwise
`float(from_wei(balance, "ether"))`). -/
def get_eth_balance (connected : Bool) (client : Except String ℕ) : ℚ :=
  if !connected then 0
  else
    match client with
    | .error _ => 0
    | .ok wei => (wei : ℚ) / 10 ^ 18

/-- The `balance_data` table of `main` (three rows: Ethereum, Solana,
Flare), with the already-fetched balances and the optional parsed
CoinGecko response as inputs. -/
def balance_table (ethAddr solAddr flrAddr : Option (List Char))
    (eth sol flr : ℚ) (prices : Option CGMap) : List BalanceRow :=
  [⟨"Ethereum", format_address ethAddr, eth, usd_value_cell eth prices "ethereum",
      decide (0 < eth)⟩,
   ⟨"Solana", format_address solAddr, sol, usd_value_cell sol prices "solana",
      decide (0 < sol)⟩,
   ⟨"Flare", format_address flrAddr, flr, usd_value_cell flr prices "flare-networks",
      decide (0 < flr)⟩]

end AssetStatus

namespace Web3AssetStatus

/-- The `balance_data` table of `main` in `get-web3-asset-status.py`
(six rows; the Jupiter and JPL rows reuse the Solana address, the
Wrapped Flare row the Flare address and the flare-networks price id). -/
def balance_table (ethAddr solAddr flrAddr : Option (List Char))
    (eth sol flr jup jpl wflr : ℚ) (prices : Option CGMap) : List BalanceRow :=
  [⟨"Ethereum", format_address ethAddr, eth, usd_value_cell eth prices "ethereum",
      decide (0 < eth)⟩,
   ⟨"Solana", format_address solAddr, sol, usd_value_cell sol prices "solana",
      decide (0 < sol)⟩,
   ⟨"Flare", format_address flrAddr, flr, usd_value_cell flr prices "flare-networks",
      decide (0 < flr)⟩,
   ⟨"Jupiter", format_address solAddr, jup, usd_value_cell jup prices "jupiter",
      decide (0 < jup)⟩,
   ⟨"JPL", format_address solAddr, jpl, usd_value_cell jpl prices "jupiter-protocol",
      decide (0 < jpl)⟩,
   ⟨"Wrapped Flare", format_address flrAddr, wflr, usd_value_cell wflr prices "flare-networks",
      decide (0 < wflr)⟩]

end Web3AssetStatus

namespace CexPrices

/-!
Model of `src/get-cex-crypto-prices.py`. All price getters wrap their
request and parsing in `try/except Exception` and return `None` on
failure, so each takes the raw outcome of the request chain as an
`Except` argument. `get_binance_price` and `get_okx_price` call
`get_exchange_rate()` themselves after their own price request succeeds;
`get_crypto_prices_df` additionally fetches the rate once for the value
it returns. To state how often the rate is fetched, the run threads a
natural-number counter: the n-th call of `get_exchange_rate` in a run
receives the n-th entry of the response stream.
-/

/-- Remote responses available to one run: `rateStream n` is the outcome
of the n-th `KRW-USDT` request issued by `get_exchange_rate` (counting
from 0); the other fields give the outcome of the single price request
each getter performs for a ticker. `.error` models any exception in the
request/parse chain. -/
structure PriceEnv where
  rateStream : ℕ → Except String ℚ
  binanceUsdt : String → Except String ℚ
  okxUsdt : String → Except String ℚ
  upbitKrw : String → Except String ℚ
  korbitKrw : String → Except String ℚ
  bithumbKrw : String → Except String ℚ

/-- `get_exchange_rate()`: fetches the Upbit KRW-USDT trade price,
returning `None` when the request raises. The counter records that one
more fetch happened. -/
def get_exchange_rate (env : PriceEnv) (n : ℕ) : Option ℚ × ℕ :=
  (match env.rateStream n with
   | .error _ => none
   | .ok x => some x, n + 1)

/-- `get_upbit_price(ticker)`: parsed trade price or `None` on any
exception. -/
def get_upbit_price (r : Except String ℚ) : Option ℚ :=
  match r with
  | .error _ => none
  | .ok p => some p

/-- `get_korbit_price(ticker)`: parsed last price or `None` on any
exception. -/
def get_korbit_price (r : Except String ℚ) : Option ℚ :=
  match r with
  | .error _ => none
  | .ok p => some p

/-- `get_bithumb_price(ticker)`: parsed closing price or `None` on any
exception. -/
def get_bithumb_price (r : Except String ℚ) : Option ℚ :=
  match r with
  | .error _ => none
  | .ok p => some p

/-- `get_binance_price(ticker)`: fetch the USDT price, then fetch the
KRW-USDT rate via `get_exchange_rate` and compute
`usdt_price * exchange_rate if exchange_rate else None` (Python
truthiness: a `None` or `0.0` rate yields a `None` KRW price). A failed
Binance request raises before the rate fetch, so the handler returns
`(None, None)` without consuming a rate response. -/
def get_binance_price (env : PriceEnv) (ticker : String) (n : ℕ) :
    (Option ℚ × Option ℚ) × ℕ :=
  match env.binanceUsdt ticker with
  | .error _ => ((none, none), n)
  | .ok u =>
    match get_exchange_rate env n with
    | (none, n2) => ((some u, none), n2)
    | (some x, n2) => ((some u, if x = 0 then none else some (u * x)), n2)

/-- `get_okx_price(ticker)`: same shape as `get_binance_price` against
the OKX endpoint. -/
def get_okx_price (env : PriceEnv) (ticker : String) (n : ℕ) :
    (Option ℚ × Option ℚ) × ℕ :=
  match env.okxUsdt ticker with
  | .error _ => ((none, none), n)
  | .ok u =>
    match get_exchange_rate env n with
    | (none, n2) => ((some u, none), n2)
    | (some x, n2) => ((some u, if x = 0 then none else some (u * x)), n2)

/-- One row of the DataFrame built by `get_crypto_prices_df`. -/
structure PriceRow where
  asset : String
  upbit : Option ℚ
  bithumb : Option ℚ
  korbit : Option ℚ
  binanceUsdt : Option ℚ
  binanceKrw : Option ℚ
  okxUsdt : Option ℚ
  okxKrw : Option ℚ
deriving Repr, DecidableEq

/-- The per-exchange ticker symbols of one asset (the `tickers` dict). -/
structure TickerSpec where
  asset : String
  upbit : String
  korbit : String
  binance : String
  okx : String
  bithumb : String

/-- The `tickers` dict of `get_crypto_prices_df`, in iteration order. -/
def tickers : List TickerSpec :=
  [⟨"BTC", "KRW-BTC", "btc", "BTC", "BTC", "BTC"⟩,
   ⟨"SOL", "KRW-SOL", "sol", "SOL", "SOL", "SOL"⟩,
   ⟨"ETH", "KRW-ETH", "eth", "ETH", "ETH", "ETH"⟩,
   ⟨"FLR", "KRW-FLR", "flr", "FLR", "FLR", "FLR"⟩,
   ⟨"JUP", "KRW-JUP", "jup", "JUP", "JUP", "JUP"⟩]

/-- Python truthiness of the `exchange_rate` variable
(`if not exchange_rate`): `None` and `0.0` are falsy. -/
def truthyQ : Option ℚ → Bool
  | none => false
  | some x => if x = 0 then false else true

/-- Loop body of `get_crypto_prices_df` for one asset: Binance price
(which fetches a rate itself on success), then the
`if not exchange_rate: exchange_rate = get_exchange_rate()` update, then
the Upbit, Korbit, OKX (another internal rate fetch) and Bithumb prices,
appending one row. The state is (rows so far, cached `exchange_rate`,
rate-fetch counter). -/
def pricesStep (env : PriceEnv) (st : List PriceRow × Option ℚ × ℕ)
    (tk : TickerSpec) : List PriceRow × Option ℚ × ℕ :=
  let b := get_binance_price env tk.binance st.2.2
  let er := if truthyQ st.2.1 then (st.2.1, b.2) else get_exchange_rate env b.2
  let up := get_upbit_price (env.upbitKrw tk.upbit)
  let ko := get_korbit_price (env.korbitKrw tk.korbit)
  let o := get_okx_price env tk.okx er.2
  let bi := get_bithumb_price (env.bithumbKrw tk.bithumb)
  (st.1 ++ [⟨tk.asset, up, bi, ko, b.1.1, b.1.2, o.1.1, o.1.2⟩], er.1, o.2)

/-- `get_crypto_prices_df()`: iterate the five assets and return the
table rows, the cached `exchange_rate` the function returns, and (model
instrumentation) the total number of `get_exchange_rate` calls the run
performed. -/
def get_crypto_prices_df (env : PriceEnv) : List PriceRow × Option ℚ × ℕ :=
  tickers.foldl (pricesStep env) ([], none, 0)

/-- A concrete all-success environment in which the n-th rate fetch
returns `n + 1` korean won per USDT and every exchange quotes every
asset at 1: it distinguishes the individual rate fetches of one run. -/
def envC1 : PriceEnv where
  rateStream := fun n => .ok ((n : ℚ) + 1)
  binanceUsdt := fun _ => .ok 1
  okxUsdt := fun _ => .ok 1
  upbitKrw := fun _ => .ok 1
  korbitKrw := fun _ => .ok 1
  bithumbKrw := fun _ => .ok 1

/-- All eleven exchange-rate responses a full-success run consumes are
nonzero (indices 0 to 10). -/
def NzRates (rates : ℕ → ℚ) : Prop :=
  rates 0 ≠ 0 ∧ rates 1 ≠ 0 ∧ rates 2 ≠ 0 ∧ rates 3 ≠ 0 ∧ rates 4 ≠ 0 ∧
  rates 5 ≠ 0 ∧ rates 6 ≠ 0 ∧ rates 7 ≠ 0 ∧ rates 8 ≠ 0 ∧ rates 9 ≠ 0 ∧
  rates 10 ≠ 0

/-- An environment in which every remote call succeeds: the n-th rate
fetch returns `rates n`, and each exchange quotes each ticker by a total
function. -/
def succEnv (rates : ℕ → ℚ) (busdt ousdt up ko bi : String → ℚ) : PriceEnv where
  rateStream := fun n => .ok (rates n)
  binanceUsdt := fun t => .ok (busdt t)
  okxUsdt := fun t => .ok (ousdt t)
  upbitKrw := fun t => .ok (up t)
  korbitKrw := fun t => .ok (ko t)
  bithumbKrw := fun t => .ok (bi t)

end CexPrices

namespace CexBalances

/-!
Model of `src/get-cex-balances.py`. The three exchange classes catch all
exceptions in `get_balances` and `get_current_price`, but
`UpbitExchange.get_detailed_price` and `KorbitExchange.get_detailed_price`
catch only a tuple of exception types, so their model returns
`Except PyExc` and an uncaught kind escapes the provider boundary.
-/

/-- Minimal JSON value model for the ticker endpoints: a numeric field is
a number or JSON `null`; `market` is a string. (Numeric-valued strings
and nested shapes are outside the model; no claim depends on them.) -/
inductive JVal
  | num (q : ℚ)
  | str (s : String)
  | null
deriving Repr, DecidableEq

/-- Exception kinds distinguished by the `except` clauses of this file.
`reqErr` covers `requests.RequestException`, the others the named Python
exception types. -/
inductive PyExc
  | reqErr
  | indexErr
  | keyErr
  | valueErr
  | typeErr
deriving Repr, DecidableEq

/-- Outcome of formatting one value with `f"{v:,.1f}"`: a number formats
fine, a string raises ValueError, `None` raises TypeError. -/
def fmtExc : JVal → Option PyExc
  | .num _ => none
  | .str _ => some .valueErr
  | .null => some .typeErr

/-- The first exception raised while printing a list of values with
`f"{v:,.1f}"`, if any (the prints run in order and stop at the first
raise). -/
def firstFmtExc : List JVal → Option PyExc
  | [] => none
  | v :: t =>
    match fmtExc v with
    | some e => some e
    | none => firstFmtExc t

/-- The `price_info` dict built by `UpbitExchange.get_detailed_price`
(all values taken from `res_json[0]`). -/
structure UpbitDetail where
  market : JVal
  prev_closing_price : JVal
  opening_price : JVal
  current_price : JVal
  low_price : JVal
  high_price : JVal
deriving Repr, DecidableEq

/-- `UpbitExchange.get_current_price(ticker)`: "KRW" short-circuits to
`1.0`; otherwise the `pyupbit.get_current_price` outcome is returned as
is (`.error` = exception, caught, `None` returned; `.ok p` = the value
the library returned, which is `None` for an unknown market). -/
def upbit_get_current_price (ticker : String)
    (client : Except String (Option ℚ)) : Option ℚ :=
  if pyUpper ticker = "KRW" then some 1
  else
    match client with
    | .error _ => none
    | .ok p => p

/-- `KorbitExchange.get_current_price(ticker)`: "KRW" short-circuits to
`1.0`; a `None` from `pykorbit.get_current_price` (unknown symbol) is
mapped to `0`; an exception is caught and `None` returned. -/
def korbit_get_current_price (ticker : String)
    (client : Except String (Option ℚ)) : Option ℚ :=
  if pyUpper ticker = "KRW" then some 1
  else
    match client with
    | .error _ => none
    | .ok none => some 0
    | .ok (some p) => some p

/-- `BithumbExchange.get_current_price(ticker)`: same shape as the
Korbit variant (a `None` price becomes `0`, an exception becomes
`None`). -/
def bithumb_get_current_price (ticker : String)
    (client : Except String (Option ℚ)) : Option ℚ :=
  if pyUpper ticker = "KRW" then some 1
  else
    match client with
    | .error _ => none
    | .ok none => some 0
    | .ok (some p) => some p

/-- `UpbitExchange.get_balances()`: a falsy result (`None` or an empty
list) and any exception both yield `None`; otherwise the balances are
returned as is. Entries are (currency, amount) pairs. -/
def upbit_get_balances (client : Except String (List (String × ℚ))) :
    Option (List (String × ℚ)) :=
  match client with
  | .error _ => none
  | .ok bs => if bs = [] then none else some bs

/-- One Korbit balance record as `main` reads it
(`available`, `trade_in_use`, `withdrawal_in_use`, missing keys read as
0 via `.get`). -/
structure KorbitBal where
  available : ℚ
  trade_in_use : ℚ
  withdrawal_in_use : ℚ
deriving Repr, DecidableEq

/-- `KorbitExchange.get_balances()`: same contract as the Upbit variant;
a falsy result or any exception yields `None`. -/
def korbit_get_balances
    (client : Except String (List (String × KorbitBal))) :
    Option (List (String × KorbitBal)) :=
  match client with
  | .error _ => none
  | .ok bs => if bs = [] then none else some bs

/-- One Bithumb balance tuple `(total, in_use, available)` already
converted to numbers (the source keeps only tuple values of length at
least 3 and converts each entry with `float`). -/
structure BithumbBal where
  total : ℚ
  in_use : ℚ
  available : ℚ
deriving Repr, DecidableEq

/-- `BithumbExchange.get_balances()`: a falsy result or any exception
yields `None`; otherwise each (currency, tuple) pair becomes a record. -/
def bithumb_get_balances
    (client : Except String (List (String × BithumbBal))) :
    Option (List (String × BithumbBal)) :=
  match client with
  | .error _ => none
  | .ok bs => if bs = [] then none else some bs

/-- `UpbitExchange.get_detailed_price(ticker)`: the input is the raw
request outcome (`.error` = `requests` raised or `.json()` failed, both
caught; `.ok` = the parsed JSON, a list of records). There is no "KRW"
short-circuit in this method. The handler catches
`(requests.RequestException, IndexError, KeyError, ValueError)` and
returns `None`; a TypeError (a `null` numeric field hitting the `:,.1f`
format of the result printout) is NOT caught and escapes. -/
def upbit_get_detailed_price (ticker : String)
    (resp : Except Unit (List (List (String × JVal)))) :
    Except PyExc (Option UpbitDetail) :=
  match resp with
  | .error _ => .ok none
  | .ok [] => .ok none
  | .ok (d :: _) =>
    if (d.lookup "trade_price").isNone then .ok none
    else
      match d.lookup "market", d.lookup "prev_closing_price",
            d.lookup "opening_price", d.lookup "trade_price",
            d.lookup "low_price", d.lookup "high_price" with
      | some mk, some pc, some op, some tp, some lo, some hi =>
        match firstFmtExc [pc, op, tp, lo, hi] with
        | some .typeErr => .error .typeErr
        | some _ => .ok none
        | none => .ok (some ⟨mk, pc, op, tp, lo, hi⟩)
      | _, _, _, _, _, _ => .ok none

/-- The `price_info` dict built by `KorbitExchange.get_detailed_price`.
The original renders the timestamp as a calendar date; the model keeps
the computed `int(timestamp / 1000)` seconds value. -/
structure KorbitDetail where
  market : String
  prev_closing_price : ℚ
  opening_price : ℚ
  current_price : ℚ
  low_price : ℚ
  high_price : ℚ
  volume : ℚ
  timestampSec : ℤ
deriving Repr, DecidableEq

/-- Python `float(v)` on a JSON value: a number converts, `None` raises
TypeError, a string raises ValueError (numeric-valued strings are not
modeled). -/
def floatOf : JVal → Except PyExc ℚ
  | .num q => .ok q
  | .str _ => .error .valueErr
  | .null => .error .typeErr

/-- Python `int(v / 1000)` on the `timestamp` value: a number divides
and truncates, `None` or a string raises TypeError. -/
def tsOf : JVal → Except PyExc ℤ
  | .num q => .ok ⌊q / 1000⌋
  | .str _ => .error .typeErr
  | .null => .error .typeErr

/-- The field conversions of `KorbitExchange.get_detailed_price` in
source order: the timestamp expression runs first, then the `float`
conversions of the price fields (each read with `.get(key, 0)`). -/
def korbit_detail_fields (ticker : String) (d : List (String × JVal)) :
    Except PyExc KorbitDetail := do
  let ts ← tsOf ((d.lookup "timestamp").getD (.num 0))
  let pc ← floatOf ((d.lookup "prev_close").getD (.num 0))
  let op ← floatOf ((d.lookup "open").getD (.num 0))
  let la ← floatOf ((d.lookup "last").getD (.num 0))
  let lo ← floatOf ((d.lookup "low").getD (.num 0))
  let hi ← floatOf ((d.lookup "high").getD (.num 0))
  let vol ← floatOf ((d.lookup "volume").getD (.num 0))
  return ⟨pyUpper ticker, pc, op, la, lo, hi, vol, ts⟩

/-- `KorbitExchange.get_detailed_price(ticker)`: "KRW" short-circuits to
`None` before any request. Otherwise the handler catches
`(requests.RequestException, KeyError, ValueError)` and returns `None`;
a TypeError (a `null` field hitting `float` or the timestamp division)
escapes. -/
def korbit_get_detailed_price (ticker : String)
    (resp : Except Unit (List (String × JVal))) :
    Except PyExc (Option KorbitDetail) :=
  if pyUpper ticker = "KRW" then .ok none
  else
    match resp with
    | .error _ => .ok none
    | .ok d =>
      if d = [] ∨ (d.lookup "last").isNone then .ok none
      else
        match korbit_detail_fields ticker d with
        | .ok info => .ok (some info)
        | .error .typeErr => .error .typeErr
        | .error _ => .ok none

/-- One day of the OHLCV frame `pybithumb.get_ohlcv` returns (the `name`
date of the row is kept as an abstract day index). -/
structure OhlcvRow where
  openP : ℚ
  highP : ℚ
  lowP : ℚ
  closeP : ℚ
  volume : ℚ
  dateIdx : ℤ
deriving Repr, DecidableEq

/-- The `price_info` dict built by `BithumbExchange.get_detailed_price`
(timestamp kept as the day index of the last OHLCV row). -/
structure BithumbDetail where
  market : String
  prev_closing_price : ℚ
  opening_price : ℚ
  current_price : ℚ
  low_price : ℚ
  high_price : ℚ
  volume : ℚ
  dateIdx : ℤ
deriving Repr, DecidableEq

/-- `BithumbExchange.get_detailed_price(ticker)`: "KRW" short-circuits to
`None` before any request. The input carries the outcomes of
`get_ohlcv` (a `None` or empty frame yields `None`) and
`get_current_price`; `except Exception` catches everything, so the model
is total. `yesterday` is the second-to-last row when there are at least
two, else the last. -/
def bithumb_get_detailed_price (ticker : String)
    (data : Except Unit (Option (List OhlcvRow) × Option ℚ)) :
    Option BithumbDetail :=
  if pyUpper ticker = "KRW" then none
  else
    match data with
    | .error _ => none
    | .ok (ohlcv?, cur?) =>
      match ohlcv? with
      | none => none
      | some rows =>
        match rows.getLast? with
        | none => none
        | some today =>
          match cur? with
          | none => none
          | some cp =>
            let yesterday :=
              if 2 ≤ rows.length then (rows.get? (rows.length - 2)).getD today
              else today
            some ⟨pyUpper ticker, yesterday.closeP, today.openP, cp,
                  today.lowP, today.highP, today.volume, today.dateIdx⟩

/-- An exchange instance held by the manager, with the credentials it
was constructed from. -/
inductive ExchangeInst
  | upbit (access secret : String)
  | korbit (access secret : String)
  | bithumb (access secret : String)
deriving Repr, DecidableEq

/-- Python truthiness of an `os.getenv` result: `None` and the empty
string are falsy. -/
def envTruthy : Option String → Bool
  | none => false
  | some s => if s = "" then false else true

/-- `ExchangeManager.create_default_manager()`: reads the six key
variables and registers each exchange only when both of its credentials
are truthy, in the order upbit, korbit, bithumb. The manager is its
`exchanges` dict, as an association list (the three keys are distinct,
so insertion is append). -/
def create_default_manager (env : String → Option String) :
    List (String × ExchangeInst) :=
  (if envTruthy (env "UPBIT_ACCESS_KEY") && envTruthy (env "UPBIT_SECRET_KEY")
   then [("upbit", ExchangeInst.upbit ((env "UPBIT_ACCESS_KEY").getD "")
            ((env "UPBIT_SECRET_KEY").getD ""))]
   else []) ++
  (if envTruthy (env "KORBIT_ACCESS_KEY") && envTruthy (env "KORBIT_SECRET_KEY")
   then [("korbit", ExchangeInst.korbit ((env "KORBIT_ACCESS_KEY").getD "")
            ((env "KORBIT_SECRET_KEY").getD ""))]
   else []) ++
  (if envTruthy (env "BITHUMB_ACCESS_KEY") && envTruthy (env "BITHUMB_SECRET_KEY")
   then [("bithumb", ExchangeInst.bithumb ((env "BITHUMB_ACCESS_KEY").getD "")
            ((env "BITHUMB_SECRET_KEY").getD ""))]
   else []) ++ []

/-- `ExchangeManager.get_exchange(name)`: `self.exchanges.get(name)`. -/
def get_exchange (m : List (String × ExchangeInst)) (name : String) :
    Option ExchangeInst :=
  m.lookup name

/-- The outside world `main` runs against: the environment variables and
the outcome of each underlying client call the three blocks perform. -/
structure CexWorld where
  getenv : String → Option String
  upbitBalClient : Except String (List (String × ℚ))
  upbitDetailResp : Except Unit (List (List (String × JVal)))
  upbitPriceClient : Except String (Option ℚ)
  korbitBalClient : Except String (List (String × KorbitBal))
  korbitDetailResp : Except Unit (List (String × JVal))
  korbitPriceClient : Except String (Option ℚ)
  bithumbBalClient : Except String (List (String × BithumbBal))
  bithumbDetailData : Except Unit (Option (List OhlcvRow) × Option ℚ)
  bithumbPriceClient : Except String (Option ℚ)

/-- The Upbit block of `main`: print the balances (handles `None`),
`get_detailed_price("BTC")` (a TypeError escaping it aborts `main`),
then `get_current_price("BTC")`. -/
def upbit_block (w : CexWorld) : Except String Unit :=
  let _balances := upbit_get_balances w.upbitBalClient
  match upbit_get_detailed_price "BTC" w.upbitDetailResp with
  | .error _ => .error "TypeError in UpbitExchange.get_detailed_price"
  | .ok _ =>
    let _price := upbit_get_current_price "BTC" w.upbitPriceClient
    .ok ()

/-- The Korbit block of `main`: it iterates `balances.items()` WITHOUT a
`None` check, so when `get_balances` returned its failure outcome the
attribute access raises AttributeError out of `main`; then
`get_detailed_price("BTC")` (TypeError can escape) and
`get_current_price("BTC")`. -/
def korbit_block (w : CexWorld) : Except String Unit :=
  match korbit_get_balances w.korbitBalClient with
  | none => .error "AttributeError: NoneType object has no attribute items"
  | some bs =>
    let _nonZero := bs.filter fun ab =>
      decide (0 < ab.2.available) || decide (0 < ab.2.trade_in_use) ||
      decide (0 < ab.2.withdrawal_in_use)
    match korbit_get_detailed_price "BTC" w.korbitDetailResp with
    | .error _ => .error "TypeError in KorbitExchange.get_detailed_price"
    | .ok _ =>
      let _price := korbit_get_current_price "BTC" w.korbitPriceClient
      .ok ()

/-- The Bithumb block of `main`: print the balances (handles `None`),
`get_detailed_price("BTC")` (total), `get_current_price("FLR")`. -/
def bithumb_block (w : CexWorld) : Except String Unit :=
  let _balances := bithumb_get_balances w.bithumbBalClient
  let _detail := bithumb_get_detailed_price "BTC" w.bithumbDetailData
  let _price := bithumb_get_current_price "FLR" w.bithumbPriceClient
  .ok ()

/-- `main()`: build the default manager, then run each exchange block
only when `get_exchange` found the exchange. The result is `.error e`
when an uncaught exception reaches the entry point (non-zero exit), and
otherwise `.ok` with the list of blocks that ran (model instrumentation
recording which exchanges produced report sections). -/
def cex_main (w : CexWorld) : Except String (List String) :=
  let mgr := create_default_manager w.getenv
  let hasUpbit := (get_exchange mgr "upbit").isSome
  let hasKorbit := (get_exchange mgr "korbit").isSome
  let hasBithumb := (get_exchange mgr "bithumb").isSome
  match (if hasUpbit then upbit_block w else .ok ()) with
  | .error e => .error e
  | .ok _ =>
    match (if hasKorbit then korbit_block w else .ok ()) with
    | .error e => .error e
    | .ok _ =>
      match (if hasBithumb then bithumb_block w else .ok ()) with
      | .error e => .error e
      | .ok _ =>
        .ok ((if hasUpbit then ["upbit"] else []) ++
             (if hasKorbit then ["korbit"] else []) ++
             (if hasBithumb then ["bithumb"] else []))

end CexBalances

/-- Environment in which only the Korbit credential pair is configured. -/
def envKorbitOnly : String → Option String := fun k =>
  if k = "KORBIT_ACCESS_KEY" then some "k"
  else if k = "KORBIT_SECRET_KEY" then some "s"
  else none

/-- A world in which Korbit is configured and its `get_balances` client
call returns an empty dict (for example an account that holds nothing),
which `KorbitExchange.get_balances` converts to its failure outcome
`None`. The other providers are unconfigured and their client outcomes
are never consulted. -/
def worldC2 : CexBalances.CexWorld where
  getenv := envKorbitOnly
  upbitBalClient := .error "unused"
  upbitDetailResp := .error ()
  upbitPriceClient := .error "unused"
  korbitBalClient := .ok []
  korbitDetailResp := .error ()
  korbitPriceClient := .error "unused"
  bithumbBalClient := .error "unused"
  bithumbDetailData := .error ()
  bithumbPriceClient := .error "unused"

/-- A CoinGecko response that succeeded but carries no "ethereum" entry
(for example when the API silently drops an unknown id). -/
def pricesC3 : CGMap := [("solana", [("usd", 100)])]

/-- An Upbit ticker response in which `trade_price` is present but the
`prev_closing_price` field is JSON `null`. -/
def respC6 : Except Unit (List (List (String × CexBalances.JVal))) :=
  .ok [[("market", .str "KRW-BTC"), ("prev_closing_price", .null),
        ("opening_price", .num 1), ("trade_price", .num 5),
        ("low_price", .num 2), ("high_price", .num 7)]]

/-- A well-formed Upbit ticker response (all numeric fields present), as
it would parse for the `KRW-KRW` market if the endpoint answered it. -/
def respC9 : Except Unit (List (List (String × CexBalances.JVal))) :=
  .ok [[("market", .str "KRW-KRW"), ("prev_closing_price", .num 1),
        ("opening_price", .num 2), ("trade_price", .num 3),
        ("low_price", .num 4), ("high_price", .num 5)]]

/-- An environment with no credentials at all. -/
def envNoCreds : String → Option String := fun _ => none

/-- A world with no credentials configured; no block runs. -/
def worldNoCreds : CexBalances.CexWorld where
  getenv := envNoCreds
  upbitBalClient := .error "unused"
  upbitDetailResp := .error ()
  upbitPriceClient := .error "unused"
  korbitBalClient := .error "unused"
  korbitDetailResp := .error ()
  korbitPriceClient := .error "unused"
  bithumbBalClient := .error "unused"
  bithumbDetailData := .error ()
  bithumbPriceClient := .error "unused"

/-- Claim C5: for every token-balance fetch (JUP, JPL) whose underlying
client call reports a missing derived token account (an exception, which
for JPL the source matches against "could not find account") or a `None`
amount, the fetch returns exactly 0 and never a failure outcome (the
functions are total and all failure branches yield 0). -/
theorem c5_confirmed : ∀ e : String,
    Web3Balances.get_jup_balance (.error e) = 0 ∧
    Web3Balances.get_jpl_balance (.error e) = 0 ∧
    Web3Balances.get_jup_balance (.ok none) = 0 ∧
    Web3Balances.get_jpl_balance (.ok none) = 0 := by
  intro e
  refine ⟨rfl, ?_, rfl, rfl⟩
  simp [Web3Balances.get_jpl_balance]

/-- Claim C7: each conversion divides the raw integer amount by
`10 ^ decimals` with the asset-specific decimals (9 for SOL, 6 for JUP
and JPL, the contract-reported value for WFLR, 18 for native EVM
balances), and the same nonzero raw integer converted at 6 decimals
differs from its conversion at 9 or 18 decimals. -/
theorem c7_confirmed : ∀ raw d : ℕ,
    Web3Balances.get_sol_balance (.ok (raw : ℤ)) = (raw : ℚ) / 10 ^ 9 ∧
    Web3Balances.get_jup_balance (.ok (some raw)) =
      (raw : ℚ) / 10 ^ Web3Balances.jup_decimals ∧
    Web3Balances.get_jpl_balance (.ok (some raw)) =
      (raw : ℚ) / 10 ^ Web3Balances.jpl_decimals ∧
    Web3Balances.get_wflr_balance true (.ok (d, raw)) = (raw : ℚ) / 10 ^ d ∧
    Web3Balances.get_eth_balance true (.ok raw) = (raw : ℚ) / 10 ^ 18 ∧
    Web3Balances.get_jup_balance (.ok (some (raw + 1))) ≠
      Web3Balances.get_sol_balance (.ok ((raw : ℤ) + 1)) ∧
    Web3Balances.get_jup_balance (.ok (some (raw + 1))) ≠
      Web3Balances.get_eth_balance true (.ok (raw + 1)) := by
  intro raw d
  have hx : ((raw : ℚ) + 1) ≠ 0 := by positivity
  refine ⟨rfl, rfl, rfl, rfl, rfl, ?_, ?_⟩
  · simp only [Web3Balances.get_jup_balance, Web3Balances.get_sol_balance,
      Web3Balances.jup_decimals]
    push_cast
    intro h
    rw [div_eq_div_iff (by positivity) (by positivity)] at h
    have h2 := mul_left_cancel₀ hx h
    norm_num at h2
  · simp only [Web3Balances.get_jup_balance, Web3Balances.get_eth_balance,
      Web3Balances.jup_decimals, Bool.not_true, if_neg]
    push_cast
    intro h
    rw [div_eq_div_iff (by positivity) (by positivity)] at h
    have h2 := mul_left_cancel₀ hx h
    norm_num at h2

/-- Claim C10: `format_address` returns "N/A" exactly when the address
is absent (`None` or empty); otherwise it is the first 12 characters,
"...", and the last 4 characters. For a nonempty address shorter than
16 characters, the character index `length - 4` lies both below
`min 12 length` (so inside the taken prefix) and in `[length - 4,
length)` (the dropped suffix), i.e. some characters appear in both. -/
theorem c10_confirmed : ∀ s : List Char,
    format_address none = "N/A".data ∧
    format_address (some []) = "N/A".data ∧
    (s ≠ [] → format_address (some s) =
      s.take 12 ++ "...".data ++ s.drop (s.length - 4)) ∧
    (s ≠ [] → format_address (some s) ≠ "N/A".data) ∧
    (s ≠ [] → s.length < 16 →
      s.length - 4 < min 12 s.length ∧ s.length - 4 < s.length) := by
  intro s
  refine ⟨rfl, rfl, ?_, ?_, ?_⟩
  · intro h
    simp [format_address, h]
  · intro h hcontra
    have hpos : 0 < s.length := List.length_pos.mpr h
    rw [format_address, if_neg h] at hcontra
    have hlen := congrArg List.length hcontra
    have h3 : ("N/A".data).length = 3 := rfl
    have hdots : ("...".data).length = 3 := rfl
    simp only [List.length_append, List.length_take, List.length_drop,
      h3, hdots] at hlen
    omega
  · intro h hlt
    have hpos : 0 < s.length := List.length_pos.mpr h
    omega

/-- Witness for `c10_confirmed` at the 10-character address
"abcdefghij". -/
theorem c10_witness :
    ("abcdefghij".data ≠ ([] : List Char)) ∧
    ("abcdefghij".data.length < 16) ∧
    ("abcdefghij".data.length - 4 < min 12 "abcdefghij".data.length ∧
     "abcdefghij".data.length - 4 < "abcdefghij".data.length) :=
  ⟨by decide, by decide,
   (c10_confirmed "abcdefghij".data).2.2.2.2 (by decide) (by decide)⟩

/-- Claim C3 is false as stated: with a successful price response that
lacks the "ethereum" entry, the price for Ethereum is absent, yet the
Ethereum USD Value cell of the balance table shows the dollar amount 0
(rendered "$0.00"), not the "N/A" placeholder. -/
theorem c3_counterexample :
    pricesC3.lookup "ethereum" = none ∧
    usd_value_cell 5 (some pricesC3) "ethereum" = some 0 ∧
    usd_value_cell 5 (some pricesC3) "ethereum" ≠ none ∧
    (AssetStatus.balance_table none none none 5 0 2 (some pricesC3)).map
      BalanceRow.usd = [some 0, some 0, some 0] := by
  refine ⟨rfl, ?_, ?_, ?_⟩
  · simp [usd_value_cell, cg_usd, pricesC3, round2, List.lookup]
  · simp [usd_value_cell, pricesC3]
  · simp [AssetStatus.balance_table, usd_value_cell, cg_usd, pricesC3,
      round2, List.lookup]

/-- Claim C3 amended: the USD Value cell is "N/A" exactly when the price
response is falsy (the fetch failed, giving `None`, or the parsed
response is an empty mapping, which Python truthiness also sends to the
"N/A" branch); when the response is non-empty and carries the asset, the
cell is `amount * price` rounded to two decimals; when the response is
non-empty but lacks the asset, the price defaults to 0 and the cell
shows 0 (rendered "$0.00"), not "N/A". Both balance tables build their
USD column from this cell. -/
theorem c3_amended : ∀ (b p : ℚ) (m : CGMap) (cid : String)
    (ethAddr solAddr flrAddr : Option (List Char))
    (eth sol flr jup jpl wflr : ℚ) (prices : Option CGMap),
    usd_value_cell b none cid = none ∧
    usd_value_cell b (some []) cid = none ∧
    (m ≠ [] → (((m.lookup cid).getD []).lookup "usd") = some p →
      usd_value_cell b (some m) cid = some (round2 (b * p))) ∧
    (m ≠ [] → (((m.lookup cid).getD []).lookup "usd") = none →
      usd_value_cell b (some m) cid = some 0) ∧
    ((AssetStatus.balance_table ethAddr solAddr flrAddr eth sol flr
        prices).map BalanceRow.usd =
      [usd_value_cell eth prices "ethereum",
       usd_value_cell sol prices "solana",
       usd_value_cell flr prices "flare-networks"]) ∧
    ((Web3AssetStatus.balance_table ethAddr solAddr flrAddr eth sol flr
        jup jpl wflr prices).map BalanceRow.usd =
      [usd_value_cell eth prices "ethereum",
       usd_value_cell sol prices "solana",
       usd_value_cell flr prices "flare-networks",
       usd_value_cell jup prices "jupiter",
       usd_value_cell jpl prices "jupiter-protocol",
       usd_value_cell wflr prices "flare-networks"]) := by
  intro b p m cid ethAddr solAddr flrAddr eth sol flr jup jpl wflr prices
  refine ⟨rfl, rfl, ?_, ?_, ?_, ?_⟩
  · intro hm h
    simp [usd_value_cell, cg_usd, h, hm]
  · intro hm h
    simp [usd_value_cell, cg_usd, h, hm, round2]
  · simp [AssetStatus.balance_table]
  · simp [Web3AssetStatus.balance_table]

/-- Witness for `c3_amended`: a non-empty response carrying price 3 for
asset "x" and balance 2 gives the cell `round2 (2 * 3)`. -/
theorem c3_witness :
    (([("x", [("usd", (3 : ℚ))])] : CGMap) ≠ []) ∧
    (((([("x", [("usd", (3 : ℚ))])] : CGMap).lookup "x").getD []).lookup
      "usd" = some 3) ∧
    usd_value_cell 2 (some [("x", [("usd", 3)])]) "x" =
      some (round2 (2 * 3)) :=
  ⟨by decide, rfl, (c3_amended 2 3 [("x", [("usd", 3)])] "x" none none
      none 0 0 0 0 0 0 none).2.2.1 (by decide) rfl⟩

/-- Claim C4 is false as stated: when the underlying Korbit client
reports an unknown symbol by returning `None`,
`KorbitExchange.get_current_price` returns the numeric price value 0,
not a failure outcome. -/
theorem c4_counterexample :
    CexBalances.korbit_get_current_price "XYZ" (.ok none) = some 0 ∧
    CexBalances.korbit_get_current_price "XYZ" (.ok none) ≠ none := by
  refine ⟨rfl, ?_⟩
  intro h
  rw [show CexBalances.korbit_get_current_price "XYZ" (.ok none) =
    some 0 from rfl] at h
  exact Option.noConfusion h

/-- Claim C4 amended: on an unreachable source (the client raises) every
provider returns the failure outcome `None` and no exception escapes;
but on an unknown symbol that the client reports as a `None` price,
Korbit and Bithumb return the numeric sentinel 0 rather than a failure
outcome, while Upbit passes the `None` through. -/
theorem c4_amended : ∀ t e : String,
    pyUpper t ≠ "KRW" →
    CexBalances.upbit_get_current_price t (.error e) = none ∧
    CexBalances.upbit_get_current_price t (.ok none) = none ∧
    CexBalances.korbit_get_current_price t (.error e) = none ∧
    CexBalances.korbit_get_current_price t (.ok none) = some 0 ∧
    CexBalances.bithumb_get_current_price t (.error e) = none ∧
    CexBalances.bithumb_get_current_price t (.ok none) = some 0 := by
  intro t e h
  simp [CexBalances.upbit_get_current_price,
    CexBalances.korbit_get_current_price,
    CexBalances.bithumb_get_current_price, h]

/-- Witness for `c4_amended` at the ticker "ABC". -/
theorem c4_witness :
    pyUpper "ABC" ≠ "KRW" ∧
    (CexBalances.upbit_get_current_price "ABC" (.error "down") = none ∧
     CexBalances.upbit_get_current_price "ABC" (.ok none) = none ∧
     CexBalances.korbit_get_current_price "ABC" (.error "down") = none ∧
     CexBalances.korbit_get_current_price "ABC" (.ok none) = some 0 ∧
     CexBalances.bithumb_get_current_price "ABC" (.error "down") = none ∧
     CexBalances.bithumb_get_current_price "ABC" (.ok none) = some 0) :=
  ⟨by decide, c4_amended "ABC" "down" (by decide)⟩

/-- Claim C6 is false as stated: `UpbitExchange.get_detailed_price` on a
response whose `prev_closing_price` field is JSON `null` raises a
TypeError at the `:,.1f` format, which its handler tuple
`(RequestException, IndexError, KeyError, ValueError)` does not catch,
so the exception escapes the provider boundary. -/
theorem c6_counterexample :
    CexBalances.upbit_get_detailed_price "BTC" respC6 =
      .error CexBalances.PyExc.typeErr := rfl

/-- Claim C6 amended: the balance and simple-price operations catch all
exceptions and return their sentinel (0 or `None`) on any client error
or falsy response, but the Upbit and Korbit `get_detailed_price`
handlers list only some exception types, and a response carrying a JSON
`null` in a numeric field raises a TypeError that escapes the provider
boundary. -/
theorem c6_amended : ∀ (e : String) (conn : Bool) (w : ℕ),
    AssetStatus.get_eth_balance conn (.error e) = 0 ∧
    AssetStatus.get_eth_balance false (.ok w) = 0 ∧
    CexBalances.upbit_get_balances (.error e) = none ∧
    CexBalances.upbit_get_balances (.ok []) = none ∧
    CexPrices.get_upbit_price (.error e) = none ∧
    CexBalances.upbit_get_detailed_price "BTC" (.error ()) = .ok none ∧
    CexBalances.upbit_get_detailed_price "BTC" respC6 =
      .error CexBalances.PyExc.typeErr ∧
    CexBalances.korbit_get_detailed_price "BTC"
      (.ok [("last", .num 1), ("timestamp", .null)]) =
      .error CexBalances.PyExc.typeErr := by
  intro e conn w
  refine ⟨?_, rfl, rfl, rfl, rfl, rfl, rfl, rfl⟩
  cases conn <;> simp [AssetStatus.get_eth_balance]

/-- Claim C9 is false as stated: `UpbitExchange.get_detailed_price` has
no KRW short-circuit; queried about "KRW" it performs the remote lookup
for the market "KRW-KRW", and when that lookup parses it returns the
parsed data, not `None`. -/
theorem c9_counterexample :
    CexBalances.upbit_get_detailed_price "KRW" respC9 =
      .ok (some ⟨.str "KRW-KRW", .num 1, .num 2, .num 3, .num 4,
        .num 5⟩) ∧
    CexBalances.upbit_get_detailed_price "KRW" respC9 ≠ .ok none := by
  refine ⟨rfl, ?_⟩
  intro h
  rw [show CexBalances.upbit_get_detailed_price "KRW" respC9 =
    .ok (some ⟨.str "KRW-KRW", .num 1, .num 2, .num 3, .num 4,
      .num 5⟩) from rfl] at h
  simp at h

/-- Claim C9 amended: `get_current_price("KRW")` returns the constant
1.0 on all three exchanges, and `get_detailed_price("KRW")` returns
`None` without any remote lookup on Korbit and Bithumb (their result is
independent of the response); but `UpbitExchange.get_detailed_price`
lacks the short-circuit: its result for "KRW" depends on the remote
response, and it returns `None` only because the KRW-KRW lookup fails. -/
theorem c9_amended : ∀ (client : Except String (Option ℚ))
    (resp : Except Unit (List (String × CexBalances.JVal)))
    (data : Except Unit (Option (List CexBalances.OhlcvRow) × Option ℚ)),
    CexBalances.upbit_get_current_price "KRW" client = some 1 ∧
    CexBalances.korbit_get_current_price "KRW" client = some 1 ∧
    CexBalances.bithumb_get_current_price "KRW" client = some 1 ∧
    CexBalances.korbit_get_detailed_price "KRW" resp = .ok none ∧
    CexBalances.bithumb_get_detailed_price "KRW" data = none ∧
    CexBalances.upbit_get_detailed_price "KRW" (.error ()) = .ok none ∧
    CexBalances.upbit_get_detailed_price "KRW" respC9 ≠ .ok none := by
  intro client resp data
  have hK : pyUpper "KRW" = "KRW" := rfl
  refine ⟨?_, ?_, ?_, ?_, ?_, rfl, ?_⟩
  · simp [CexBalances.upbit_get_current_price, hK]
  · simp [CexBalances.korbit_get_current_price, hK]
  · simp [CexBalances.bithumb_get_current_price, hK]
  · simp [CexBalances.korbit_get_detailed_price, hK]
  · simp [CexBalances.bithumb_get_detailed_price, hK]
  · intro h
    rw [show CexBalances.upbit_get_detailed_price "KRW" respC9 =
      .ok (some ⟨.str "KRW-KRW", .num 1, .num 2, .num 3, .num 4,
        .num 5⟩) from rfl] at h
    simp at h

/-- Claim C2 is false on the code (code bug): with Korbit configured and
its `get_balances` client call returning an empty dict, the method
returns its failure outcome `None`, and `main` then evaluates
`balances.items()` on `None`, so an AttributeError escapes the entry
point and the process exits non-zero. -/
theorem c2_failing_run :
    CexBalances.cex_main worldC2 =
      .error "AttributeError: NoneType object has no attribute items" :=
  rfl

/-- Registry lookup of "upbit" succeeds exactly when both Upbit
credentials are truthy. -/
theorem lookup_upbit_isSome (env : String → Option String) :
    (CexBalances.get_exchange (CexBalances.create_default_manager env)
      "upbit").isSome =
    (CexBalances.envTruthy (env "UPBIT_ACCESS_KEY") &&
     CexBalances.envTruthy (env "UPBIT_SECRET_KEY")) := by
  cases h1 : CexBalances.envTruthy (env "UPBIT_ACCESS_KEY") &&
      CexBalances.envTruthy (env "UPBIT_SECRET_KEY") <;>
  cases h2 : CexBalances.envTruthy (env "KORBIT_ACCESS_KEY") &&
      CexBalances.envTruthy (env "KORBIT_SECRET_KEY") <;>
  cases h3 : CexBalances.envTruthy (env "BITHUMB_ACCESS_KEY") &&
      CexBalances.envTruthy (env "BITHUMB_SECRET_KEY") <;>
  simp [CexBalances.create_default_manager, CexBalances.get_exchange,
    h1, h2, h3, List.lookup]

/-- Registry lookup of "korbit" succeeds exactly when both Korbit
credentials are truthy. -/
theorem lookup_korbit_isSome (env : String → Option String) :
    (CexBalances.get_exchange (CexBalances.create_default_manager env)
      "korbit").isSome =
    (CexBalances.envTruthy (env "KORBIT_ACCESS_KEY") &&
     CexBalances.envTruthy (env "KORBIT_SECRET_KEY")) := by
  cases h1 : CexBalances.envTruthy (env "UPBIT_ACCESS_KEY") &&
      CexBalances.envTruthy (env "UPBIT_SECRET_KEY") <;>
  cases h2 : CexBalances.envTruthy (env "KORBIT_ACCESS_KEY") &&
      CexBalances.envTruthy (env "KORBIT_SECRET_KEY") <;>
  cases h3 : CexBalances.envTruthy (env "BITHUMB_ACCESS_KEY") &&
      CexBalances.envTruthy (env "BITHUMB_SECRET_KEY") <;>
  simp [CexBalances.create_default_manager, CexBalances.get_exchange,
    h1, h2, h3, List.lookup]

/-- Registry lookup of "bithumb" succeeds exactly when both Bithumb
credentials are truthy. -/
theorem lookup_bithumb_isSome (env : String → Option String) :
    (CexBalances.get_exchange (CexBalances.create_default_manager env)
      "bithumb").isSome =
    (CexBalances.envTruthy (env "BITHUMB_ACCESS_KEY") &&
     CexBalances.envTruthy (env "BITHUMB_SECRET_KEY")) := by
  cases h1 : CexBalances.envTruthy (env "UPBIT_ACCESS_KEY") &&
      CexBalances.envTruthy (env "UPBIT_SECRET_KEY") <;>
  cases h2 : CexBalances.envTruthy (env "KORBIT_ACCESS_KEY") &&
      CexBalances.envTruthy (env "KORBIT_SECRET_KEY") <;>
  cases h3 : CexBalances.envTruthy (env "BITHUMB_ACCESS_KEY") &&
      CexBalances.envTruthy (env "BITHUMB_SECRET_KEY") <;>
  simp [CexBalances.create_default_manager, CexBalances.get_exchange,
    h1, h2, h3, List.lookup]

/-- Claim C8: `create_default_manager` registers each exchange exactly
when both of its credential environment values are present and
non-empty; an exchange with an absent credential pair is missing from
the manager (`get_exchange` returns `None`), and when the Korbit pair is
absent no Korbit section (row) appears in the output of `main` and no
error arises from its absence. -/
theorem c8_confirmed : ∀ (env : String → Option String)
    (w : CexBalances.CexWorld) (l : List String),
    ((CexBalances.get_exchange (CexBalances.create_default_manager env)
        "upbit").isSome =
      (CexBalances.envTruthy (env "UPBIT_ACCESS_KEY") &&
       CexBalances.envTruthy (env "UPBIT_SECRET_KEY"))) ∧
    ((CexBalances.get_exchange (CexBalances.create_default_manager env)
        "korbit").isSome =
      (CexBalances.envTruthy (env "KORBIT_ACCESS_KEY") &&
       CexBalances.envTruthy (env "KORBIT_SECRET_KEY"))) ∧
    ((CexBalances.get_exchange (CexBalances.create_default_manager env)
        "bithumb").isSome =
      (CexBalances.envTruthy (env "BITHUMB_ACCESS_KEY") &&
       CexBalances.envTruthy (env "BITHUMB_SECRET_KEY"))) ∧
    ((CexBalances.envTruthy (w.getenv "KORBIT_ACCESS_KEY") &&
      CexBalances.envTruthy (w.getenv "KORBIT_SECRET_KEY")) = false →
      CexBalances.cex_main w = .ok l → "korbit" ∉ l) := by
  intro env w l
  refine ⟨lookup_upbit_isSome env, lookup_korbit_isSome env,
    lookup_bithumb_isSome env, ?_⟩
  intro hf hm
  have hk := lookup_korbit_isSome w.getenv
  rw [hf] at hk
  rw [CexBalances.cex_main] at hm
  rw [hk] at hm
  simp only [if_false, Bool.false_eq_true] at hm
  split at hm
  · exact absurd hm (by simp)
  · split at hm
    · exact absurd hm (by simp)
    · have hl := Except.ok.inj hm
      subst hl
      split <;> split <;> simp

/-- Witness for `c8_confirmed`: with no credentials configured,
`main` succeeds with an empty section list, which contains no Korbit
row. -/
theorem c8_witness :
    ((CexBalances.envTruthy (worldNoCreds.getenv "KORBIT_ACCESS_KEY") &&
      CexBalances.envTruthy (worldNoCreds.getenv "KORBIT_SECRET_KEY")) =
        false) ∧
    (CexBalances.cex_main worldNoCreds = .ok []) ∧
    ("korbit" ∉ ([] : List String)) :=
  ⟨rfl, rfl,
   (c8_confirmed worldNoCreds.getenv worldNoCreds []).2.2.2 rfl rfl⟩

/-- Claim C1 is false as stated: in the all-success run `envC1` (whose
n-th rate fetch answers `n + 1` and where every USDT quote is 1), the
run performs 11 exchange-rate fetches, not at most one, and the Binance
KRW conversions of the five assets use five different rate values
(fetches 0, 3, 5, 7, 9), the OKX conversions five more (fetches 2, 4,
6, 8, 10). -/
theorem c1_counterexample :
    ¬ ((CexPrices.get_crypto_prices_df CexPrices.envC1).2.2 ≤ 1) ∧
    ((CexPrices.get_crypto_prices_df CexPrices.envC1).1.map
      CexPrices.PriceRow.binanceKrw =
      [some 1, some 4, some 6, some 8, some 10]) ∧
    ((CexPrices.get_crypto_prices_df CexPrices.envC1).1.map
      CexPrices.PriceRow.okxKrw =
      [some 3, some 5, some 7, some 9, some 11]) := by
  norm_num [CexPrices.get_crypto_prices_df, CexPrices.tickers,
    CexPrices.pricesStep, CexPrices.get_binance_price,
    CexPrices.get_okx_price, CexPrices.get_exchange_rate,
    CexPrices.get_upbit_price, CexPrices.get_korbit_price,
    CexPrices.get_bithumb_price, CexPrices.truthyQ, CexPrices.envC1,
    List.foldl]

/-- Claim C1 amended: in a run of `get_crypto_prices_df` in which every
remote call succeeds and all rate responses are nonzero, the KRW-USDT
rate is fetched exactly 11 times (once inside each of the five Binance
and five OKX calls plus once in the aggregation loop for the returned
rate); each Binance and OKX KRW conversion uses the rate of its own
fetch (indices 0,3,5,7,9 and 2,4,6,8,10 respectively), so conversions
for different assets may use different rate values, and the rate the
function returns is the one of fetch 1. -/
theorem c1_amended : ∀ (rates : ℕ → ℚ) (busdt ousdt up ko bi : String → ℚ),
    CexPrices.NzRates rates →
    ((CexPrices.get_crypto_prices_df
        (CexPrices.succEnv rates busdt ousdt up ko bi)).2.2 = 11) ∧
    ((CexPrices.get_crypto_prices_df
        (CexPrices.succEnv rates busdt ousdt up ko bi)).1.map
        CexPrices.PriceRow.binanceKrw =
      [some (busdt "BTC" * rates 0), some (busdt "SOL" * rates 3),
       some (busdt "ETH" * rates 5), some (busdt "FLR" * rates 7),
       some (busdt "JUP" * rates 9)]) ∧
    ((CexPrices.get_crypto_prices_df
        (CexPrices.succEnv rates busdt ousdt up ko bi)).1.map
        CexPrices.PriceRow.okxKrw =
      [some (ousdt "BTC" * rates 2), some (ousdt "SOL" * rates 4),
       some (ousdt "ETH" * rates 6), some (ousdt "FLR" * rates 8),
       some (ousdt "JUP" * rates 10)]) ∧
    ((CexPrices.get_crypto_prices_df
        (CexPrices.succEnv rates busdt ousdt up ko bi)).2.1 =
      some (rates 1)) := by
  intro rates busdt ousdt up ko bi hnz
  obtain ⟨h0, h1, h2, h3, h4, h5, h6, h7, h8, h9, h10⟩ := hnz
  refine ⟨?_, ?_, ?_, ?_⟩ <;>
  simp [CexPrices.get_crypto_prices_df, CexPrices.tickers,
    CexPrices.pricesStep, CexPrices.get_binance_price,
    CexPrices.get_okx_price, CexPrices.get_exchange_rate,
    CexPrices.get_upbit_price, CexPrices.get_korbit_price,
    CexPrices.get_bithumb_price, CexPrices.truthyQ, CexPrices.succEnv,
    List.foldl, h0, h1, h2, h3, h4, h5, h6, h7, h8, h9, h10]

/-- Witness for `c1_amended`: all rate fetches answer 1000 and all
quotes are 1; the run fetches the rate 11 times. -/
theorem c1_witness :
    CexPrices.NzRates (fun _ => (1000 : ℚ)) ∧
    (CexPrices.get_crypto_prices_df
      (CexPrices.succEnv (fun _ => 1000) (fun _ => 1) (fun _ => 1)
        (fun _ => 1) (fun _ => 1) (fun _ => 1))).2.2 = 11 :=
  ⟨by simp [CexPrices.NzRates],
   (c1_amended (fun _ => 1000) (fun _ => 1) (fun _ => 1) (fun _ => 1)
      (fun _ => 1) (fun _ => 1) (by simp [CexPrices.NzRates])).1⟩
